import Mathlib

/-!
Verification of the two HTTP handlers in `src/flask SELFLEARN/app.py`.

The program is a Flask app with two routes:

  @app.get("/api/tasks")
  def list_tasks():
      return jsonify([{"id": 1, "title": "Task 1"}])

  @app.post("/api/tasks")
  def create_task():
      data = request.get_json()
      title = data.get("title") if data else None
      if not title:
          abort(400, description="title required")
      return jsonify({"id": 2, "title": title}), 201

We embed JSON values, Python truthiness, and the two handlers as pure
functions.  The request body is modelled as `Option Json`: `none` is the
case where `request.get_json()` yields Python `None` (no usable body), and
`some v` is a parsed JSON document.  A handler's outcome is a `Response`:
a JSON body with a status code, an `abort`-style client error carrying a
status and a description, or an uncaught Python exception (the
`AttributeError` raised by `data.get` when the parsed body is a truthy
non-object, which Flask turns into a server error).

The module defines no mutable state at all (the only module-level binding
is the `app` object; the task store seen in the comments is never defined),
so each handler is a pure function of its own request.  A run of the server
is therefore embedded as `runServer`, which processes a list of requests in
order, each one handled with no state passed between them.
-/

/-- JSON values, as produced by `request.get_json()`.  Numbers are modelled
as integers; the program and the claims only use integral numbers. -/
inductive Json where
  | null : Json
  | bool (b : Bool) : Json
  | num (n : Int) : Json
  | str (s : String) : Json
  | arr (xs : List Json) : Json
  | obj (kvs : List (String × Json)) : Json

/-- Python truthiness of a parsed JSON value: `None`, `False`, `0`, `""`,
`[]` and `{}` are falsy, everything else is truthy. -/
def Json.truthy : Json → Bool
  | Json.null => false
  | Json.bool b => b
  | Json.num n => n != 0
  | Json.str s => s != ""
  | Json.arr xs => !xs.isEmpty
  | Json.obj kvs => !kvs.isEmpty

/-- Key lookup in a JSON object's field list, the semantics of Python's
`dict.get(key)` (dict keys are unique, so first match suffices);
`none` models Python `None`, the default of `dict.get`. -/
def lookupKey : List (String × Json) → String → Option Json
  | [], _ => none
  | (k, v) :: rest, key => if k = key then some v else lookupKey rest key

/-- Field lookup on a JSON value: `some` only on objects. -/
def Json.lookup : Json → String → Option Json
  | Json.obj kvs, key => lookupKey kvs key
  | _, _ => none

/-- The outcome of running a handler: a JSON body with a status code
(`jsonify(...), status`), a client error raised by
`abort(status, description=...)`, or an uncaught Python exception that
Flask surfaces as a server error. -/
inductive Response where
  | json (body : Json) (status : Nat) : Response
  | error (status : Nat) (description : String) : Response
  | exception (name : String) : Response

/-- The line `title = data.get("title") if data else None` of
`create_task`.  If `data` is `None` or falsy, `title` is `None`; if `data`
is a truthy object, `title` is `data.get("title")` (the field's value, or
`None` when the field is absent); if `data` is truthy but not an object,
`data.get` raises `AttributeError`. -/
def getTitle (data : Option Json) : Except String (Option Json) :=
  match data with
  | none => Except.ok none
  | some d =>
    if d.truthy then
      match d with
      | Json.obj kvs => Except.ok (lookupKey kvs "title")
      | _ => Except.error "AttributeError"
    else Except.ok none

/-- The `create_task` handler (POST /api/tasks), a function of the parsed
request body.  After extracting `title`, the guard `if not title` aborts
with 400 and description "title required" whenever `title` is `None` or
falsy; otherwise the handler returns `{"id": 2, "title": title}` with
status 201. -/
def create_task (data : Option Json) : Response :=
  match getTitle data with
  | Except.error e => Response.exception e
  | Except.ok none => Response.error 400 "title required"
  | Except.ok (some v) =>
    if v.truthy then
      Response.json (Json.obj [("id", Json.num 2), ("title", v)]) 201
    else
      Response.error 400 "title required"

/-- The `list_tasks` handler (GET /api/tasks): it returns the literal
`[{"id": 1, "title": "Task 1"}]` via `jsonify`, which carries status 200. -/
def list_tasks : Response :=
  Response.json (Json.arr [Json.obj [("id", Json.num 1), ("title", Json.str "Task 1")]]) 200

/-- A request to one of the two routes of the app.  A GET request carries
no input; a POST request carries its parsed JSON body. -/
inductive Request where
  | getTasks : Request
  | postTasks (body : Option Json) : Request

/-- Dispatch of a request to its handler, as done by Flask's routing
table built from the `@app.get`/`@app.post` decorators. -/
def handle : Request → Response
  | Request.getTasks => list_tasks
  | Request.postTasks body => create_task body

/-- A run of the server on a sequence of requests, in order.  The module
defines no mutable state read or written by either handler, so no state is
threaded between requests: each response is produced by `handle` alone. -/
def runServer : List Request → List Response
  | [] => []
  | r :: rs => handle r :: runServer rs

/-- The spec's notion for claim C2 of the title being "missing or empty":
the body is absent, or it is an object with no "title" field, or the title
field is the empty string. -/
def specTitleMissingOrEmpty (data : Option Json) : Bool :=
  match data with
  | none => true
  | some (Json.obj kvs) =>
    match lookupKey kvs "title" with
    | none => true
    | some (Json.str s) => s == ""
    | some _ => false
  | some _ => false

/-- The value the handler's `title` variable ends up holding when no
exception is raised: the "title" field of an object body, and `None`
otherwise (absent body, falsy body, or missing field). -/
def extractedTitle : Option Json → Option Json
  | some (Json.obj kvs) => lookupKey kvs "title"
  | _ => none

/-- The extracted title is present and truthy: the body is an object whose
"title" field holds a truthy value.  This is the exact success condition of
`create_task`. -/
def extractedTitleTruthy (data : Option Json) : Bool :=
  match extractedTitle data with
  | some v => v.truthy
  | none => false

/-- The parsed body is truthy but not a JSON object: the case in which
`data.get` raises `AttributeError`. -/
def truthyNonObject (data : Option Json) : Bool :=
  match data with
  | some (Json.obj _) => false
  | some d => d.truthy
  | none => false

/-- Helper: `getTitle` raises `AttributeError` exactly on truthy non-object
bodies, and otherwise yields the extracted title. -/
theorem getTitle_eq (data : Option Json) :
    getTitle data =
      if truthyNonObject data then Except.error "AttributeError"
      else Except.ok (extractedTitle data) := by
  cases data with
  | none => rfl
  | some d =>
    cases d with
    | null => rfl
    | bool b => cases b <;> rfl
    | num n =>
      show (if (n != 0) = true then _ else _) = if (n != 0) = true then _ else _
      cases n != 0 <;> simp [extractedTitle]
    | str s =>
      show (if (s != "") = true then _ else _) = if (s != "") = true then _ else _
      cases s != "" <;> simp [extractedTitle]
    | arr xs => cases xs <;> rfl
    | obj kvs => cases kvs <;> rfl

/-- Helper: closed-form characterization of `create_task`: a truthy
non-object body yields the uncaught `AttributeError`; otherwise the handler
succeeds with `{"id": 2, "title": v}` and 201 when the extracted title `v`
is truthy, and aborts with 400 "title required" when it is missing or
falsy. -/
theorem create_task_eq (data : Option Json) :
    create_task data =
      if truthyNonObject data then Response.exception "AttributeError"
      else
        match extractedTitle data with
        | some v =>
          if v.truthy then
            Response.json (Json.obj [("id", Json.num 2), ("title", v)]) 201
          else Response.error 400 "title required"
        | none => Response.error 400 "title required" := by
  unfold create_task
  rw [getTitle_eq]
  cases hno : truthyNonObject data with
  | true => simp
  | false =>
    cases he : extractedTitle data with
    | none => simp
    | some v => simp

/-- Helper: a run distributes over concatenation of request sequences. -/
theorem runServer_append (xs ys : List Request) :
    runServer (xs ++ ys) = runServer xs ++ runServer ys := by
  induction xs with
  | nil => rfl
  | cons r rs ih => simp [runServer, ih]

/-- Helper: any successful (status 201) response of `create_task` has body
`{"id": 2, "title": v}` for some truthy `v`. -/
theorem create_task_success_shape (data : Option Json) (b : Json)
    (h : create_task data = Response.json b 201) :
    ∃ v, v.truthy = true ∧ b = Json.obj [("id", Json.num 2), ("title", v)] := by
  unfold create_task at h
  cases hg : getTitle data with
  | error e => rw [hg] at h; simp at h
  | ok topt =>
    rw [hg] at h
    cases topt with
    | none => simp at h
    | some v =>
      by_cases hv : v.truthy = true
      · simp only [if_pos hv] at h
        exact ⟨v, hv, by injection h with h1 h2; exact h1.symm⟩
      · simp only [if_neg hv] at h; simp at h

/-- Claim C1: for every request body with a non-empty string title `t`, the
create handler returns status 201 with body recording id 2 and the echoed
title `t`. -/
theorem create_task_echoes_nonempty_title (t : String) (h : t ≠ "") :
    create_task (some (Json.obj [("title", Json.str t)])) =
      Response.json (Json.obj [("id", Json.num 2), ("title", Json.str t)]) 201 := by
  have he : extractedTitle (some (Json.obj [("title", Json.str t)])) = some (Json.str t) := rfl
  rw [create_task_eq, he]
  simp [truthyNonObject, Json.truthy, h]

/-- Witness for C1 at the spec's concrete example: title "Buy milk". -/
theorem create_task_echoes_nonempty_title_witness :
    ("Buy milk" : String) ≠ "" ∧
    create_task (some (Json.obj [("title", Json.str "Buy milk")])) =
      Response.json (Json.obj [("id", Json.num 2), ("title", Json.str "Buy milk")]) 201 :=
  ⟨by decide, create_task_echoes_nonempty_title "Buy milk" (by decide)⟩

/-- Claim C2, counterexample: the body `{"title": 0}` has a title that is
neither missing nor empty in the spec's sense, yet the handler fails with
the 400 client error instead of succeeding with 201 (`0` is falsy). -/
theorem create_task_fails_iff_missing_or_empty_cex :
    specTitleMissingOrEmpty (some (Json.obj [("title", Json.num 0)])) = false ∧
    create_task (some (Json.obj [("title", Json.num 0)])) =
      Response.error 400 "title required" :=
  ⟨rfl, rfl⟩

/-- Claim C2, amended: the create handler returns the 400 client error if
and only if the extracted title is missing or falsy and the body is not a
truthy non-object; it returns a 201 JSON response if and only if the body
is an object whose "title" field is truthy.  (A truthy non-object body
instead raises an uncaught AttributeError, a server error.) -/
theorem create_task_client_error_iff (data : Option Json) :
    (create_task data = Response.error 400 "title required" ↔
      (extractedTitleTruthy data = false ∧ truthyNonObject data = false)) ∧
    ((∃ b, create_task data = Response.json b 201) ↔
      extractedTitleTruthy data = true) := by
  rw [create_task_eq]
  unfold extractedTitleTruthy
  cases hno : truthyNonObject data with
  | true =>
    have he : extractedTitle data = none := by
      cases data with
      | none => rfl
      | some d => cases d with
        | obj kvs => simp [truthyNonObject] at hno
        | _ => rfl
    simp [he]
  | false =>
    cases he : extractedTitle data with
    | none => simp
    | some v => cases hv : v.truthy <;> simp [hv]

/-- Claim C3: the list handler responds to every GET /api/tasks request
with status 200 and the one-element array whose sole object has id 1 and
title "Task 1". -/
theorem list_tasks_fixed_response :
    handle Request.getTasks =
      Response.json
        (Json.arr [Json.obj [("id", Json.num 1), ("title", Json.str "Task 1")]]) 200 :=
  rfl

/-- Claim C4: two successive successful invocations of the create handler
both return id 2: the identifier in each 201 body is the constant 2,
independent of any counter or store. -/
theorem successive_creates_return_id_two (d₁ d₂ : Option Json) (b₁ b₂ : Json)
    (h₁ : create_task d₁ = Response.json b₁ 201)
    (h₂ : create_task d₂ = Response.json b₂ 201) :
    runServer [Request.postTasks d₁, Request.postTasks d₂] =
      [Response.json b₁ 201, Response.json b₂ 201] ∧
    Json.lookup b₁ "id" = some (Json.num 2) ∧
    Json.lookup b₂ "id" = some (Json.num 2) := by
  obtain ⟨v₁, _, hb₁⟩ := create_task_success_shape d₁ b₁ h₁
  obtain ⟨v₂, _, hb₂⟩ := create_task_success_shape d₂ b₂ h₂
  refine ⟨?_, ?_, ?_⟩
  · simp [runServer, handle, h₁, h₂]
  · rw [hb₁]; rfl
  · rw [hb₂]; rfl

/-- Witness for C4: two creations with titles "A" and "B" both answer with
id 2. -/
theorem successive_creates_return_id_two_witness :
    runServer [Request.postTasks (some (Json.obj [("title", Json.str "A")])),
               Request.postTasks (some (Json.obj [("title", Json.str "B")]))] =
      [Response.json (Json.obj [("id", Json.num 2), ("title", Json.str "A")]) 201,
       Response.json (Json.obj [("id", Json.num 2), ("title", Json.str "B")]) 201] ∧
    Json.lookup (Json.obj [("id", Json.num 2), ("title", Json.str "A")]) "id" =
      some (Json.num 2) ∧
    Json.lookup (Json.obj [("id", Json.num 2), ("title", Json.str "B")]) "id" =
      some (Json.num 2) :=
  successive_creates_return_id_two
    (some (Json.obj [("title", Json.str "A")]))
    (some (Json.obj [("title", Json.str "B")]))
    (Json.obj [("id", Json.num 2), ("title", Json.str "A")])
    (Json.obj [("id", Json.num 2), ("title", Json.str "B")])
    rfl rfl

/-- Claim C5: every failure of the create handler is the 400 client error
carrying the description "title required"; no other status or message is
ever produced on the error path. -/
theorem create_task_error_is_400_title_required (data : Option Json)
    (s : Nat) (d : String) (h : create_task data = Response.error s d) :
    s = 400 ∧ d = "title required" := by
  rw [create_task_eq] at h
  cases hno : truthyNonObject data <;> rw [hno] at h
  · cases he : extractedTitle data <;> rw [he] at h
    · simp at h
      exact ⟨h.1.symm, h.2.symm⟩
    · rename_i v
      cases hv : v.truthy
      · simp [hv] at h
        exact ⟨h.1.symm, h.2.symm⟩
      · simp [hv] at h
  · simp at h

/-- Witness for C5: the absent-body failure carries 400 and
"title required". -/
theorem create_task_error_is_400_title_required_witness :
    create_task none = Response.error 400 "title required" ∧
    400 = 400 ∧ "title required" = "title required" :=
  ⟨rfl, create_task_error_is_400_title_required none 400 "title required" rfl⟩

/-- Claim C6: the list handler succeeds on every invocation with the fixed
200 JSON response (so its result is never an error or an exception), and
inserting a GET request anywhere in a run changes no other response: it has
no side effects. -/
theorem list_tasks_always_succeeds :
    list_tasks =
      Response.json
        (Json.arr [Json.obj [("id", Json.num 1), ("title", Json.str "Task 1")]]) 200 ∧
    ∀ (pre post : List Request),
      runServer (pre ++ Request.getTasks :: post) =
        runServer pre ++ list_tasks :: runServer post := by
  refine ⟨rfl, ?_⟩
  intro pre post
  rw [runServer_append]
  rfl

/-- Claim C7: each response in a run is a pure function of its own request
alone: the i-th response is `handle` of the i-th request, so identical
requests receive identical responses regardless of position or of any
earlier request. -/
theorem response_pure_function_of_own_request (reqs : List Request) (i : Nat) :
    (runServer reqs)[i]? = reqs[i]?.map handle := by
  induction reqs generalizing i with
  | nil => simp [runServer]
  | cons r rs ih =>
    cases i with
    | zero => simp [runServer]
    | succ j => simp [runServer, ih]

/-- Claim C8: a create request leaves every other response in a run
unchanged (no state is written), and a GET immediately after any create
still returns the fixed literal list. -/
theorem create_task_no_state_effect (pre post : List Request) (d : Option Json) :
    runServer (pre ++ Request.postTasks d :: post) =
      runServer pre ++ create_task d :: runServer post ∧
    runServer (pre ++ [Request.postTasks d, Request.getTasks]) =
      runServer pre ++ [create_task d,
        Response.json
          (Json.arr [Json.obj [("id", Json.num 1), ("title", Json.str "Task 1")]]) 200] := by
  constructor
  · rw [runServer_append]
    rfl
  · rw [runServer_append]
    rfl

/-- Claim C9: any falsy title value (0, false, null, "", [], or the empty
object) in the request body makes the create handler abort with the 400
"title required" error rather than create a task. -/
theorem falsy_title_rejected (kvs : List (String × Json)) (v : Json)
    (h : lookupKey kvs "title" = some v) (hv : v.truthy = false) :
    create_task (some (Json.obj kvs)) = Response.error 400 "title required" := by
  rw [create_task_eq]
  simp [truthyNonObject, extractedTitle, h, hv]

/-- Witness for C9 at the body with title 0. -/
theorem falsy_title_rejected_witness :
    lookupKey [("title", Json.num 0)] "title" = some (Json.num 0) ∧
    (Json.num 0).truthy = false ∧
    create_task (some (Json.obj [("title", Json.num 0)])) =
      Response.error 400 "title required" :=
  ⟨rfl, rfl, falsy_title_rejected [("title", Json.num 0)] (Json.num 0) rfl rfl⟩

/-- Claim C10: no type check is performed on the title: any truthy value
(in particular a non-string such as a number or a non-empty array) is
echoed back in a 201 response with id 2. -/
theorem truthy_title_echoed (kvs : List (String × Json)) (v : Json)
    (h : lookupKey kvs "title" = some v) (hv : v.truthy = true) :
    create_task (some (Json.obj kvs)) =
      Response.json (Json.obj [("id", Json.num 2), ("title", v)]) 201 := by
  rw [create_task_eq]
  simp [truthyNonObject, extractedTitle, h, hv]

/-- Witness for C10 at the non-string body with title 5. -/
theorem truthy_title_echoed_witness :
    lookupKey [("title", Json.num 5)] "title" = some (Json.num 5) ∧
    (Json.num 5).truthy = true ∧
    create_task (some (Json.obj [("title", Json.num 5)])) =
      Response.json (Json.obj [("id", Json.num 2), ("title", Json.num 5)]) 201 :=
  ⟨rfl, rfl, truthy_title_echoed [("title", Json.num 5)] (Json.num 5) rfl rfl⟩
